import Mathlib

/-!
Verification of the face-based authentication core of the repository.

Part 1 embeds, directly from the source, the frame-quality pipeline of the
face-registration screen (`checkFaceQuality`, `handleFaceDetected`,
`takePicture`) and the auth context (`login`, `registerFace`, `verifyFace`).
JavaScript numbers are modelled as exact rationals; a JavaScript promise that
may reject is modelled by `FetchResult`, whose `thrown` constructor carries the
error message, and a `try/catch` block becomes a match on that result.

Part 2 models the session state machine, retry budget, consent gate and token
issuer described by the specification; those components have no implementation
in the repository (the configuration constant `maxRetries = 3` is declared but
never read), so they are modelled from the specification text and marked as
such in their doc comments.
-/

set_option autoImplicit false

namespace FaceAuth

/-- Face bounding box, from the `Face` geometry used by the face-registration
screen: `bounds.origin.x/y` and `bounds.size.width/height`. -/
structure FaceBox where
  x : ℚ
  y : ℚ
  width : ℚ
  height : ℚ
deriving DecidableEq

/-- `minSize` constant of `checkFaceQuality`. -/
def minSize : ℚ := 100

/-- `maxSize` constant of `checkFaceQuality`. -/
def maxSize : ℚ := 240

/-- The size condition of `checkFaceQuality`:
`width > minSize && width < maxSize && height > minSize && height < maxSize`.
All four comparisons are strict, as in the source. -/
def sizeOk (f : FaceBox) : Bool :=
  decide (minSize < f.width) && decide (f.width < maxSize) &&
    decide (minSize < f.height) && decide (f.height < maxSize)

/-- Score accumulation of `checkFaceQuality`: starts at 0, adds 0.4 when the
box size is acceptable, adds 0.3 when `isFaceCentered` holds, and always adds
a final 0.3. -/
def checkFaceQualityScore (f : FaceBox) (isFaceCentered : Bool) : ℚ :=
  let score : ℚ := 0
  let score := if sizeOk f then score + 4/10 else score
  let score := if isFaceCentered then score + 3/10 else score
  score + 3/10

/-- Return value of `checkFaceQuality`: `score > 0.7` (strict, as in the
source). This boolean is discarded by the only caller, `handleFaceDetected`. -/
def checkFaceQualityPasses (f : FaceBox) (isFaceCentered : Bool) : Bool :=
  decide (7/10 < checkFaceQualityScore f isFaceCentered)

/-- `centerX` of `handleFaceDetected`: `face.bounds.origin.x + face.bounds.size.width / 2`. -/
def centerX (f : FaceBox) : ℚ := f.x + f.width / 2

/-- `centerY` of `handleFaceDetected`: `face.bounds.origin.y + face.bounds.size.height / 2`. -/
def centerY (f : FaceBox) : ℚ := f.y + f.height / 2

/-- Centering test of `handleFaceDetected`:
`isXCentered = centerX > 160 && centerX < 240` and
`isYCentered = centerY > 260 && centerY < 340`; the face is centered when
both hold. The bounds are fixed pixel constants; no frame dimension is read. -/
def isCenteredCalc (f : FaceBox) : Bool :=
  (decide (160 < centerX f) && decide (centerX f < 240)) &&
    (decide (260 < centerY f) && decide (centerY f < 340))

/-- React component state of the face-registration screen that the capture
pipeline reads and writes: the `isFaceCentered` and `qualityScore` state
variables. -/
structure ScreenState where
  isFaceCentered : Bool
  qualityScore : ℚ
deriving DecidableEq

/-- Initial values of the two state variables: `useState(false)` and
`useState(0)`. -/
def initialScreenState : ScreenState := { isFaceCentered := false, qualityScore := 0 }

/-- One invocation of `handleFaceDetected` on a detection result. With no
faces, both state variables reset. With a face, `setIsFaceCentered` receives
the fixed-rectangle test on the first face, and `checkFaceQuality` stores a
score computed with the `isFaceCentered` value captured by the current render
closure, i.e. the value from before this invocation. -/
def handleFaceDetected (st : ScreenState) (faces : List FaceBox) : ScreenState :=
  match faces with
  | [] => { isFaceCentered := false, qualityScore := 0 }
  | face :: _ =>
      { isFaceCentered := isCenteredCalc face,
        qualityScore := checkFaceQualityScore face st.isFaceCentered }

/-- Whether `takePicture` proceeds to the Matcher call (`registerFace`). The
source guard is `if (!cameraRef.current || !isFaceCentered) return;`; after it,
`registerFace` is always reached. The stored quality score is not consulted. -/
def takePictureSubmits (hasCamera : Bool) (st : ScreenState) : Bool :=
  hasCamera && st.isFaceCentered

/-- Screen state when the same face has been reported by the detector twice in
a row, so the one-render lag of `qualityScore` behind `isFaceCentered` has
settled. -/
def steadyState (f : FaceBox) : ScreenState :=
  handleFaceDetected (handleFaceDetected initialScreenState [f]) [f]

/-- Result of a JavaScript async computation: either a resolved value or a
thrown/rejected error with its message. -/
inductive FetchResult (α : Type) where
  | ok (value : α)
  | thrown (msg : String)
deriving DecidableEq

/-- Parsed JSON body returned by the face backend: `{success, access_token?}`. -/
structure FaceApiResponse where
  success : Bool
  access_token : Option String
deriving DecidableEq

/-- JavaScript truthiness of an optional string: absent and `""` are falsy. -/
def strTruthy : Option String → Bool
  | none => false
  | some s => decide (s ≠ "")

/-- JavaScript `x || ''` on an optional string. -/
def jsOrEmpty : Option String → String
  | none => ""
  | some s => if s = "" then "" else s

/-- Auth context state: `{isAuthenticated, token, userId, isLoading}`. -/
structure AuthState where
  isAuthenticated : Bool
  token : Option String
  userId : Option String
  isLoading : Bool
deriving DecidableEq

/-- `login` of the auth context: persists the token and user id, then replaces
the auth state. A storage failure is rethrown as
`Error('Failed to save authentication state')` and nothing is set. `storageOk`
is the outcome of the `AsyncStorage.setItem` calls. -/
def login (token uid : String) (storageOk : Bool) : FetchResult AuthState :=
  if storageOk then
    FetchResult.ok
      { isAuthenticated := true, token := some token, userId := some uid, isLoading := false }
  else
    FetchResult.thrown "Failed to save authentication state"

/-- Body of `registerFace` before its `catch`: await the fetch and JSON parse
(`net`), then return `result.success`. -/
def registerFaceBody (net : FetchResult FaceApiResponse) : FetchResult Bool :=
  match net with
  | FetchResult.thrown e => FetchResult.thrown e
  | FetchResult.ok r => FetchResult.ok r.success

/-- `registerFace` of the auth context: the body wrapped in the
`try/catch` that maps every thrown error to `false`. -/
def registerFace (net : FetchResult FaceApiResponse) : Bool :=
  match registerFaceBody net with
  | FetchResult.ok b => b
  | FetchResult.thrown _ => false

/-- Body of `verifyFace` before its `catch`: await the fetch and JSON parse
(`net`); when `result.success && result.access_token` is truthy, call
`login(result.access_token, state.userId || '')` and return `true`, otherwise
return `false` with the auth state unchanged. -/
def verifyFaceBody (st : AuthState) (net : FetchResult FaceApiResponse) (storageOk : Bool) :
    FetchResult (AuthState × Bool) :=
  match net with
  | FetchResult.thrown e => FetchResult.thrown e
  | FetchResult.ok r =>
      if r.success && strTruthy r.access_token then
        match r.access_token with
        | some tok =>
            match login tok (jsOrEmpty st.userId) storageOk with
            | FetchResult.ok st2 => FetchResult.ok (st2, true)
            | FetchResult.thrown e => FetchResult.thrown e
        | none => FetchResult.ok (st, false)
      else
        FetchResult.ok (st, false)

/-- `verifyFace` of the auth context: the body wrapped in the `try/catch` that
maps every thrown error to `false`, leaving the auth state as it was. -/
def verifyFace (st : AuthState) (net : FetchResult FaceApiResponse) (storageOk : Bool) :
    AuthState × Bool :=
  match verifyFaceBody st net storageOk with
  | FetchResult.ok res => res
  | FetchResult.thrown _ => (st, false)

/-- A face that is centered (centroid (200, 300)) but below the acceptable
size range, so its composite score is 0.6. -/
def smallCenteredFace : FaceBox := ⟨175, 285, 50, 30⟩

/-- A face of acceptable size whose centroid (375, 375) is outside the fixed
centering rectangle, so its composite score is 0.7. -/
def bigOffsetFace : FaceBox := ⟨300, 300, 150, 150⟩

/-- A face that is centered (centroid (200, 300)) and inside the acceptable
size range, so its composite score is 1. -/
def goodFace : FaceBox := ⟨149, 249, 102, 102⟩

/-- A degenerate zero-area face box. -/
def zeroFace : FaceBox := ⟨0, 0, 0, 0⟩

/-- `FACE_VERIFICATION.maxRetries` from the constants module: 3. The constant
is declared by the repository but read by no other source file. -/
def maxRetries : ℕ := 3

/-- Modelled from the spec: the session mode enum {Enroll, Verify} of the
session data model; no session implementation exists in the repository. -/
inductive SessionMode where
  | enroll
  | verify
deriving DecidableEq

/-- Modelled from the spec: the session states. `Scoring` and `Submitting` are
transient phases of one `submitFrame` call and are represented inside the step
function rather than as resting states; `Idle`/`AwaitingConsent` are resolved
by `sessionStart`, which performs the consent check. -/
inductive SessionPhase where
  | awaitingFrame
  | accepted
  | lockout
  | expired
  | denied
deriving DecidableEq

/-- Modelled from the spec: the outcome enum of an AttemptRecord. -/
inductive AttemptOutcome where
  | rejectedLocally
  | rejectedByMatcher
  | accepted
deriving DecidableEq

/-- Modelled from the spec: an AttemptRecord; `matcherResult` is absent when
the frame was rejected before reaching the matcher. -/
structure AttemptRecord where
  qualityScore : ℚ
  centered : Bool
  matcherResult : Option (Bool × ℚ)
  outcome : AttemptOutcome
  timestamp : ℕ
deriving DecidableEq

/-- Modelled from the spec: a bearer Token minted by the token issuer. -/
structure Token where
  value : String
  issuedAt : ℕ
  expiresAt : ℕ
deriving DecidableEq

/-- Modelled from the spec: the consent flags read at session start, a mapping
of consent category to an optional boolean (absent flags are possible and must
fail closed). -/
structure ConsentState where
  facial_data : Option Bool
  biometric_data : Option Bool
deriving DecidableEq

/-- Modelled from the spec: the consent gate decision. -/
inductive ConsentDecision where
  | allow
  | deny
deriving DecidableEq

/-- Modelled from the spec: the consent gate; enrollment and verification both
require `facial_data = true`, and any missing or false flag yields `deny`
(fails closed). No consent gate exists in the repository; the privacy screen
only persists the flags. -/
def consentCheck (cs : ConsentState) : ConsentDecision :=
  match cs.facial_data with
  | some true => ConsentDecision.allow
  | _ => ConsentDecision.deny

/-- Modelled from the spec: the matcher capability's possible answers: a
definitive accept, a definitive no-match with its confidence, or a transport
error. -/
inductive MatcherResponse where
  | accepted
  | rejected (confidence : ℚ)
  | transportError
deriving DecidableEq

/-- Modelled from the spec: the structured result of one `submitFrame` call. -/
inductive SubmitResult where
  | rejectedLocally
  | rejectedByMatcher
  | accepted
  | transportError
  | lockedOut
  | sessionExpired
  | consentDenied
  | notActive
deriving DecidableEq

/-- Modelled from the spec: a Session. `scorerCalls` is a ghost counter of
quality-scorer invocations, used to state that a denied session never reaches
the scoring stage. -/
structure Session where
  mode : SessionMode
  userId : String
  phase : SessionPhase
  attempts : List AttemptRecord
  maxAttempts : ℕ
  createdAt : ℕ
  expiresAt : ℕ
  resultToken : Option Token
  scorerCalls : ℕ
deriving DecidableEq

/-- Modelled from the spec: the configured token time-to-live of the token
issuer. -/
def tokenTTL : ℕ := 300

/-- Modelled from the spec: the token issuer, minting a Token with
`expiresAt = issuedAt + configuredTTL`. -/
def issueToken (uid : String) (now : ℕ) : Token :=
  { value := uid, issuedAt := now, expiresAt := now + tokenTTL }

/-- Modelled from the spec: `Session.start` runs the consent gate once and
either yields an empty session awaiting its first frame or a terminal denied
session. The deployed attempt bound is `maxRetries = 3`. -/
def sessionStart (mode : SessionMode) (uid : String) (cs : ConsentState)
    (now ttl : ℕ) : Session :=
  { mode := mode
    userId := uid
    phase := match consentCheck cs with
      | ConsentDecision.allow => SessionPhase.awaitingFrame
      | ConsentDecision.deny => SessionPhase.denied
    attempts := []
    maxAttempts := maxRetries
    createdAt := now
    expiresAt := now + ttl
    resultToken := none
    scorerCalls := 0 }

/-- Modelled from the spec: the retry budget; an attempt record is appended
and, when the count reaches `maxAttempts` without an accept, the session is
driven to `Lockout`, otherwise back to `AwaitingFrame`. -/
def appendAttempt (s : Session) (r : AttemptRecord) : Session :=
  let atts := s.attempts ++ [r]
  { s with
      attempts := atts
      phase := if s.maxAttempts ≤ atts.length then SessionPhase.lockout
               else SessionPhase.awaitingFrame }

/-- Modelled from the spec: `submitFrame`. Terminal sessions reject the call
without change; an expired lifetime is observed first; then the frame is
scored (quality scorer and centering evaluator — the repository's
`checkFaceQuality` and the fixed-rectangle centering test); a score below 0.7
is a local rejection consuming an attempt; otherwise the matcher answer `m`
decides: accept issues the token, no-match consumes an attempt, and a
transport error leaves the attempts untouched and the session awaiting a
frame. -/
def submitFrame (s : Session) (now : ℕ) (f : FaceBox) (m : MatcherResponse) :
    Session × SubmitResult :=
  match s.phase with
  | SessionPhase.denied => (s, SubmitResult.consentDenied)
  | SessionPhase.lockout => (s, SubmitResult.lockedOut)
  | SessionPhase.accepted => (s, SubmitResult.notActive)
  | SessionPhase.expired => (s, SubmitResult.sessionExpired)
  | SessionPhase.awaitingFrame =>
      if s.expiresAt < now then
        ({ s with phase := SessionPhase.expired }, SubmitResult.sessionExpired)
      else
        let centered := isCenteredCalc f
        let score := checkFaceQualityScore f centered
        let s1 := { s with scorerCalls := s.scorerCalls + 1 }
        if score < 7/10 then
          (appendAttempt s1
            { qualityScore := score, centered := centered, matcherResult := none,
              outcome := AttemptOutcome.rejectedLocally, timestamp := now },
           SubmitResult.rejectedLocally)
        else
          match m with
          | MatcherResponse.transportError => (s1, SubmitResult.transportError)
          | MatcherResponse.accepted =>
              ({ s1 with
                  phase := SessionPhase.accepted
                  attempts := s1.attempts ++
                    [{ qualityScore := score, centered := centered,
                       matcherResult := some (true, 1),
                       outcome := AttemptOutcome.accepted, timestamp := now }]
                  resultToken := some (issueToken s.userId now) },
               SubmitResult.accepted)
          | MatcherResponse.rejected conf =>
              (appendAttempt s1
                { qualityScore := score, centered := centered,
                  matcherResult := some (false, conf),
                  outcome := AttemptOutcome.rejectedByMatcher, timestamp := now },
               SubmitResult.rejectedByMatcher)

/-- Modelled from the spec: result of `getToken`, either the token or the
defined not-accepted error. -/
inductive GetTokenResult where
  | ok (t : Token)
  | notAccepted
deriving DecidableEq

/-- Modelled from the spec: `getToken(sessionId)` is only valid once the state
is `Accepted`; every other state yields the defined error. -/
def getToken (s : Session) : GetTokenResult :=
  match s.phase, s.resultToken with
  | SessionPhase.accepted, some t => GetTokenResult.ok t
  | _, _ => GetTokenResult.notAccepted

/-- Modelled from the spec: an external interaction with a session — one
`submitFrame` call with its observation time, frame and matcher answer. -/
inductive SessionEvent where
  | submit (now : ℕ) (f : FaceBox) (m : MatcherResponse)
deriving DecidableEq

/-- Modelled from the spec: a session's lifetime — the session produced by a
sequence of `submitFrame` calls after `sessionStart`. -/
def runSession : Session → List SessionEvent → Session
  | s, [] => s
  | s, SessionEvent.submit now f m :: evs => runSession (submitFrame s now f m).1 evs

/-- Session well-formedness: the attempt count respects the budget, a session
awaiting a frame still has budget left, and the result token is present
exactly in the accepted state. -/
def SessionInv (s : Session) : Prop :=
  s.attempts.length ≤ s.maxAttempts ∧
    (s.phase = SessionPhase.awaitingFrame → s.attempts.length < s.maxAttempts) ∧
    (s.resultToken.isSome = true ↔ s.phase = SessionPhase.accepted)

theorem submitFrame_attempts_mono (s : Session) (now : ℕ) (f : FaceBox)
    (m : MatcherResponse) :
    s.attempts.length ≤ ((submitFrame s now f m).1).attempts.length := by
  cases hph : s.phase <;> simp only [submitFrame, hph]
  all_goals try exact Nat.le_refl _
  split
  · exact Nat.le_refl _
  · split
    · simp [appendAttempt]
    · cases m <;> simp [appendAttempt]

theorem submitFrame_maxAttempts_eq (s : Session) (now : ℕ) (f : FaceBox)
    (m : MatcherResponse) :
    ((submitFrame s now f m).1).maxAttempts = s.maxAttempts := by
  cases hph : s.phase <;> simp only [submitFrame, hph]
  split
  · rfl
  · split
    · simp [appendAttempt]
    · cases m <;> simp [appendAttempt]

theorem runSession_maxAttempts_eq (s : Session) (evs : List SessionEvent) :
    (runSession s evs).maxAttempts = s.maxAttempts := by
  induction evs generalizing s with
  | nil => rfl
  | cons e evs ih =>
      cases e with
      | submit now f m =>
          simpa [runSession, submitFrame_maxAttempts_eq] using
            ih (submitFrame s now f m).1

theorem sessionInv_submitFrame (s : Session) (now : ℕ) (f : FaceBox)
    (m : MatcherResponse) (h : SessionInv s) : SessionInv ((submitFrame s now f m).1) := by
  obtain ⟨h1, h2, h3⟩ := h
  cases hph : s.phase <;> simp only [submitFrame, hph]
  all_goals try exact ⟨h1, h2, h3⟩
  have hbudget : s.attempts.length < s.maxAttempts := h2 hph
  have htok : s.resultToken = none := by
    rcases hcase : s.resultToken with _ | t
    · rfl
    · exfalso
      have := h3.1 (by simp [hcase])
      rw [hph] at this
      cases this
  split
  · refine ⟨h1, ?_, ?_⟩
    · intro hcontra
      cases hcontra
    · simp [htok]
  · split
    · refine ⟨?_, ?_, ?_⟩
      · simp only [appendAttempt, List.length_append, List.length_singleton]
        omega
      · simp only [appendAttempt, List.length_append, List.length_singleton]
        split

        · intro hcontra
          cases hcontra
        · intro _
          omega
      · simp only [appendAttempt, htok]
        split <;> simp
    · cases m
      case accepted =>
        refine ⟨?_, ?_, ?_⟩
        · simp only [List.length_append, List.length_singleton]
          omega
        · intro hcontra
          cases hcontra
        · simp
      case rejected conf =>
        refine ⟨?_, ?_, ?_⟩
        · simp only [appendAttempt, List.length_append, List.length_singleton]
          omega
        · simp only [appendAttempt, List.length_append, List.length_singleton]
          split
          · intro hcontra
            cases hcontra
          · intro _
            omega
        · simp only [appendAttempt, htok]
          split <;> simp
      case transportError =>
        refine ⟨h1, ?_, ?_⟩
        · intro _
          exact hbudget
        · simp [htok, hph]

theorem sessionInv_sessionStart (mode : SessionMode) (uid : String)
    (cs : ConsentState) (now ttl : ℕ) :
    SessionInv (sessionStart mode uid cs now ttl) := by
  refine ⟨by simp [sessionStart], ?_, ?_⟩
  · intro _
    simp [sessionStart, maxRetries]
  · simp only [sessionStart]
    constructor
    · intro hcontra
      simp at hcontra
    · intro hcontra
      split at hcontra <;> cases hcontra

theorem sessionInv_runSession (s : Session) (evs : List SessionEvent)
    (h : SessionInv s) : SessionInv (runSession s evs) := by
  induction evs generalizing s with
  | nil => exact h
  | cons e evs ih =>
      cases e with
      | submit now f m =>
          exact ih (submitFrame s now f m).1 (sessionInv_submitFrame s now f m h)

theorem submitFrame_denied_eq (s : Session) (now : ℕ) (f : FaceBox)
    (m : MatcherResponse) (h : s.phase = SessionPhase.denied) :
    submitFrame s now f m = (s, SubmitResult.consentDenied) := by
  simp [submitFrame, h]

theorem runSession_denied_eq (s : Session) (evs : List SessionEvent)
    (h : s.phase = SessionPhase.denied) : runSession s evs = s := by
  induction evs generalizing s with
  | nil => rfl
  | cons e evs ih =>
      cases e with
      | submit now f m =>
          simp only [runSession, submitFrame_denied_eq s now f m h]
          exact ih s h

/-- C1 counterexample: the claim "a frame is eligible for submission to the
Matcher iff its composite score is at least 0.7" is false on the code in both
directions. `smallCenteredFace` is centered but undersized, so its settled
composite score is 0.6 < 0.7, yet `takePicture` proceeds to the Matcher call;
`bigOffsetFace` has composite score 0.7 (size credit plus baseline), yet
`takePicture` returns before the Matcher call because the face is not
centered. The gate reads only `isFaceCentered`; the quality score is never
consulted (and `checkFaceQuality` itself tests `score > 0.7`, strictly). -/
theorem C1_counterexample :
    takePictureSubmits true (steadyState smallCenteredFace) = true ∧
      (steadyState smallCenteredFace).qualityScore = 6/10 ∧
      (steadyState smallCenteredFace).qualityScore < 7/10 ∧
      checkFaceQualityPasses smallCenteredFace
        (steadyState smallCenteredFace).isFaceCentered = false ∧
      takePictureSubmits true (steadyState bigOffsetFace) = false ∧
      (steadyState bigOffsetFace).qualityScore = 7/10 := by
  refine ⟨?_, ?_, ?_, ?_, ?_, ?_⟩ <;>
    norm_num [takePictureSubmits, steadyState, handleFaceDetected, initialScreenState,
      checkFaceQualityScore, checkFaceQualityPasses, isCenteredCalc, centerX, centerY,
      sizeOk, minSize, maxSize, smallCenteredFace, bigOffsetFace]

/-- C1 (amended): a captured frame is eligible for submission to the Matcher
iff the camera is available and the face is centered; the composite quality
score plays no role in the gate (the submission decision is unchanged under
any modification of the stored quality score). -/
theorem C1_amended_submission_iff_centered (cam : Bool) (st : ScreenState) (q : ℚ) :
    (takePictureSubmits cam st = true ↔ cam = true ∧ st.isFaceCentered = true) ∧
      takePictureSubmits cam { st with qualityScore := q } = takePictureSubmits cam st := by
  constructor
  · simp [takePictureSubmits]
  · rfl

/-- C4: the composite quality score is the weighted sum of three terms: a size
term of weight 0.4 awarded exactly when width and height both lie strictly
within the configured range (100, 240), a centering term of weight 0.3 awarded
exactly when the centering flag holds, and a fixed baseline term of weight
0.3. The second conjunct states it for the settled pipeline state, where the
centering flag is exactly the centering evaluator's report on the frame. -/
theorem C4_composite_weighted_sum (f : FaceBox) (c : Bool) (st : ScreenState) :
    checkFaceQualityScore f c
        = 4/10 * (if sizeOk f then (1 : ℚ) else 0)
          + 3/10 * (if c then (1 : ℚ) else 0) + 3/10 * 1 ∧
      (handleFaceDetected (handleFaceDetected st [f]) [f]).qualityScore
        = 4/10 * (if sizeOk f then (1 : ℚ) else 0)
          + 3/10 * (if isCenteredCalc f then (1 : ℚ) else 0) + 3/10 * 1 := by
  have key : ∀ c' : Bool, checkFaceQualityScore f c'
      = 4/10 * (if sizeOk f then (1 : ℚ) else 0)
        + 3/10 * (if c' then (1 : ℚ) else 0) + 3/10 * 1 := by
    intro c'
    cases hs : sizeOk f <;> cases c' <;>
      simp [checkFaceQualityScore, hs]
  exact ⟨key c, key (isCenteredCalc f)⟩

/-- C5 counterexample: the claim "every malformed geometry (zero-area bounding
box) scores 0" is false on the code. The zero-area box scores 0.3: the
baseline term is added unconditionally, so no input can score below 0.3. -/
theorem C5_counterexample :
    zeroFace.width * zeroFace.height = 0 ∧
      checkFaceQualityScore zeroFace false = 3/10 ∧
      checkFaceQualityScore zeroFace false ≠ 0 ∧
      (steadyState zeroFace).qualityScore = 3/10 := by
  refine ⟨?_, ?_, ?_, ?_⟩ <;>
    norm_num [steadyState, handleFaceDetected, initialScreenState, checkFaceQualityScore,
      isCenteredCalc, centerX, centerY, sizeOk, minSize, maxSize, zeroFace]

/-- C5 (amended): the quality scorer is total (it is a pure function defined
on every face box, raising no exception) and its output always lies in [0, 1];
a malformed geometry (zero-area bounding box) never receives the size term and
scores 0.3 plus the centering term — at most 0.6, not 0. -/
theorem C5_amended_total_range (f : FaceBox) (c : Bool) :
    0 ≤ checkFaceQualityScore f c ∧ checkFaceQualityScore f c ≤ 1 ∧
      (f.width * f.height = 0 →
        checkFaceQualityScore f c = 3/10 + (if c then (3 : ℚ)/10 else 0)) := by
  have hz : f.width * f.height = 0 → sizeOk f = false := by
    intro h
    rcases mul_eq_zero.mp h with h0 | h0 <;>
      simp [sizeOk, minSize, maxSize, h0]
  refine ⟨?_, ?_, ?_⟩
  · cases hs : sizeOk f <;> cases c <;> simp [checkFaceQualityScore, hs] <;> norm_num
  · cases hs : sizeOk f <;> cases c <;> simp [checkFaceQualityScore, hs] <;> norm_num
  · intro h
    have hs := hz h
    cases c <;> simp [checkFaceQualityScore, hs]

/-- C5 witness: the amended statement evaluated at the zero-area box with the
centering flag off: the score is 0.3. -/
theorem C5_witness :
    checkFaceQualityScore zeroFace false = 3/10 + (if (false : Bool) then (3 : ℚ)/10 else 0) :=
  (C5_amended_total_range zeroFace false).2.2 (by norm_num [zeroFace])

/-- C6 counterexample: the claim that the centering verdict is given by a
central rectangle proportional to the frame size is false on the code: the
bounds are fixed pixel constants. Doubling a centered box (as would happen
when the same relative geometry is captured at twice the frame resolution,
keeping the centroid at the same relative position) flips the verdict from
true to false, which a frame-proportional rectangle would never do. -/
theorem C6_counterexample :
    isCenteredCalc ⟨180, 280, 40, 40⟩ = true ∧
      isCenteredCalc ⟨360, 560, 80, 80⟩ = false ∧
      centerX ⟨360, 560, 80, 80⟩ = 2 * centerX ⟨180, 280, 40, 40⟩ ∧
      centerY ⟨360, 560, 80, 80⟩ = 2 * centerY ⟨180, 280, 40, 40⟩ := by
  refine ⟨?_, ?_, ?_, ?_⟩ <;> norm_num [isCenteredCalc, centerX, centerY]

/-- C6 (amended): the centering evaluator is a pure function of the bounding
box returning true iff the centroid falls inside the fixed absolute rectangle
(160, 240) × (260, 340), independent of any frame size; its verdict depends
only on the centroid. -/
theorem C6_amended_fixed_rectangle (f : FaceBox) :
    (isCenteredCalc f = true ↔
        160 < centerX f ∧ centerX f < 240 ∧ 260 < centerY f ∧ centerY f < 340) ∧
      ∀ g : FaceBox, centerX g = centerX f → centerY g = centerY f →
        isCenteredCalc g = isCenteredCalc f := by
  constructor
  · simp [isCenteredCalc, and_assoc]
  · intro g hx hy
    simp [isCenteredCalc, hx, hy]

/-- C6 witness: two boxes of different sizes with the same centroid (200, 300)
receive the same verdict. -/
theorem C6_witness :
    isCenteredCalc ⟨190, 290, 20, 20⟩ = isCenteredCalc ⟨180, 280, 40, 40⟩ :=
  (C6_amended_fixed_rectangle ⟨180, 280, 40, 40⟩).2 ⟨190, 290, 20, 20⟩
    (by norm_num [centerX]) (by norm_num [centerY])

theorem getToken_spec (s : Session) :
    (∀ t : Token, getToken s = GetTokenResult.ok t →
        s.phase = SessionPhase.accepted ∧ s.resultToken = some t) ∧
      (s.phase ≠ SessionPhase.accepted → getToken s = GetTokenResult.notAccepted) := by
  constructor
  · intro t ht
    cases hph : s.phase <;> rcases htok : s.resultToken with _ | t2 <;>
      simp only [getToken, hph, htok] at ht <;> cases ht <;> exact ⟨rfl, rfl⟩
  · intro hne
    cases hph : s.phase <;> rcases htok : s.resultToken with _ | t2 <;>
      first
        | exact absurd hph hne
        | simp only [getToken, hph, htok]

/-- C2: over any session lifetime, `attempts.length` is non-decreasing (each
`submitFrame` call leaves it equal or one larger) and never exceeds the
configured `maxAttempts` bound, which the deployed configuration
(`FACE_VERIFICATION.maxRetries`) sets to 3. -/
theorem C2_attempts_monotone_bounded :
    (∀ (s : Session) (now : ℕ) (f : FaceBox) (m : MatcherResponse),
        s.attempts.length ≤ ((submitFrame s now f m).1).attempts.length) ∧
      ∀ (mode : SessionMode) (uid : String) (cs : ConsentState) (now0 ttl : ℕ)
        (evs : List SessionEvent),
        (runSession (sessionStart mode uid cs now0 ttl) evs).attempts.length ≤ maxRetries := by
  constructor
  · exact submitFrame_attempts_mono
  · intro mode uid cs now0 ttl evs
    have hInv := sessionInv_runSession _ evs (sessionInv_sessionStart mode uid cs now0 ttl)
    have h1 := hInv.1
    rw [runSession_maxAttempts_eq] at h1
    exact h1

/-- C3: over any session lifetime, a token is present exactly when the session
has reached the accepted state, and `getToken` returns a token only in the
accepted state — in every other state it yields the defined not-accepted
error, never a stale or incomplete token. -/
theorem C3_token_iff_accepted (mode : SessionMode) (uid : String) (cs : ConsentState)
    (now0 ttl : ℕ) (evs : List SessionEvent) :
    ((runSession (sessionStart mode uid cs now0 ttl) evs).resultToken.isSome = true ↔
        (runSession (sessionStart mode uid cs now0 ttl) evs).phase = SessionPhase.accepted) ∧
      (∀ t : Token,
        getToken (runSession (sessionStart mode uid cs now0 ttl) evs) = GetTokenResult.ok t →
          (runSession (sessionStart mode uid cs now0 ttl) evs).phase = SessionPhase.accepted ∧
            (runSession (sessionStart mode uid cs now0 ttl) evs).resultToken = some t) ∧
      ((runSession (sessionStart mode uid cs now0 ttl) evs).phase ≠ SessionPhase.accepted →
        getToken (runSession (sessionStart mode uid cs now0 ttl) evs) =
          GetTokenResult.notAccepted) := by
  have hInv := sessionInv_runSession _ evs (sessionInv_sessionStart mode uid cs now0 ttl)
  have hspec := getToken_spec (runSession (sessionStart mode uid cs now0 ttl) evs)
  exact ⟨hInv.2.2, hspec.1, hspec.2⟩

/-- C3 witness: a session started with full consent whose single good frame
the matcher accepts ends accepted with the minted token stored. -/
theorem C3_witness :
    (runSession (sessionStart SessionMode.verify "u" ⟨some true, some true⟩ 0 100)
        [SessionEvent.submit 5 goodFace MatcherResponse.accepted]).phase
        = SessionPhase.accepted ∧
      (runSession (sessionStart SessionMode.verify "u" ⟨some true, some true⟩ 0 100)
        [SessionEvent.submit 5 goodFace MatcherResponse.accepted]).resultToken
        = some ⟨"u", 5, 305⟩ :=
  (C3_token_iff_accepted SessionMode.verify "u" ⟨some true, some true⟩ 0 100
      [SessionEvent.submit 5 goodFace MatcherResponse.accepted]).2.1 ⟨"u", 5, 305⟩
    (by norm_num [runSession, sessionStart, consentCheck, submitFrame, issueToken, tokenTTL,
      maxRetries, getToken, checkFaceQualityScore, isCenteredCalc, centerX, centerY,
      sizeOk, minSize, maxSize, goodFace])

/-- C7 counterexample: the claim that a transport error is surfaced to the
caller as distinct from a no-match rejection is false on the code: `verifyFace`
resolves to `false` with the auth state unchanged both when the network call
throws and when the backend answers a definitive no-match, so the two outcomes
are observationally identical to the caller. -/
theorem C7_counterexample :
    verifyFace ⟨false, none, some "u", false⟩ (FetchResult.thrown "Network request failed") true
        = (⟨false, none, some "u", false⟩, false) ∧
      verifyFace ⟨false, none, some "u", false⟩ (FetchResult.ok ⟨false, none⟩) true
        = (⟨false, none, some "u", false⟩, false) :=
  ⟨rfl, rfl⟩

/-- C7 (amended): in the modelled session machine a transport error during
submission leaves the attempts sequence unchanged, returns the session to the
awaiting-frame state and reports the distinct transport-error result — but in
the implementation the matcher call (`verifyFace`) surfaces a transport error
identically to a no-match rejection: both resolve to `false` with the auth
state unchanged. -/
theorem C7_amended_transport_error :
    (∀ (s : Session) (now : ℕ) (f : FaceBox),
        s.phase = SessionPhase.awaitingFrame → ¬ s.expiresAt < now →
        ¬ checkFaceQualityScore f (isCenteredCalc f) < 7/10 →
          (submitFrame s now f MatcherResponse.transportError).1.attempts = s.attempts ∧
            (submitFrame s now f MatcherResponse.transportError).1.phase =
              SessionPhase.awaitingFrame ∧
            (submitFrame s now f MatcherResponse.transportError).2 =
              SubmitResult.transportError) ∧
      ∀ st : AuthState,
        verifyFace st (FetchResult.thrown "Network request failed") true = (st, false) ∧
          verifyFace st (FetchResult.ok ⟨false, none⟩) true = (st, false) := by
  constructor
  · intro s now f hph hexp hq
    have heq : submitFrame s now f MatcherResponse.transportError
        = ({ s with scorerCalls := s.scorerCalls + 1 }, SubmitResult.transportError) := by
      simp only [submitFrame, hph, if_neg hexp, if_neg hq]
    rw [heq]
    exact ⟨rfl, hph, rfl⟩
  · intro st
    exact ⟨rfl, rfl⟩

/-- C7 witness: the amended statement at a freshly started consented session
and a good frame at time 5. -/
theorem C7_witness :
    (submitFrame (sessionStart SessionMode.verify "u" ⟨some true, some true⟩ 0 100) 5 goodFace
        MatcherResponse.transportError).1.attempts
        = (sessionStart SessionMode.verify "u" ⟨some true, some true⟩ 0 100).attempts ∧
      (submitFrame (sessionStart SessionMode.verify "u" ⟨some true, some true⟩ 0 100) 5 goodFace
        MatcherResponse.transportError).1.phase = SessionPhase.awaitingFrame ∧
      (submitFrame (sessionStart SessionMode.verify "u" ⟨some true, some true⟩ 0 100) 5 goodFace
        MatcherResponse.transportError).2 = SubmitResult.transportError :=
  C7_amended_transport_error.1 (sessionStart SessionMode.verify "u" ⟨some true, some true⟩ 0 100)
    5 goodFace rfl (by decide)
    (by norm_num [checkFaceQualityScore, isCenteredCalc, centerX, centerY, sizeOk,
      minSize, maxSize, goodFace])

/-- C8: in the modelled session machine, a session denied at start by the
consent gate stays denied forever and the quality scorer is invoked zero times
over its whole lifetime; and the gate fails closed — any missing or false
`facial_data` flag yields a deny decision. -/
theorem C8_consent_denied_no_scoring :
    (∀ cs : ConsentState, consentCheck cs = ConsentDecision.deny →
        ∀ (mode : SessionMode) (uid : String) (now0 ttl : ℕ) (evs : List SessionEvent),
          (runSession (sessionStart mode uid cs now0 ttl) evs).scorerCalls = 0 ∧
            (runSession (sessionStart mode uid cs now0 ttl) evs).phase = SessionPhase.denied) ∧
      ∀ cs : ConsentState, cs.facial_data ≠ some true →
        consentCheck cs = ConsentDecision.deny := by
  constructor
  · intro cs hdeny mode uid now0 ttl evs
    have hph : (sessionStart mode uid cs now0 ttl).phase = SessionPhase.denied := by
      simp [sessionStart, hdeny]
    rw [runSession_denied_eq _ _ hph]
    exact ⟨rfl, hph⟩
  · intro cs hne
    rcases hcs : cs.facial_data with _ | b
    · simp [consentCheck, hcs]
    · cases b
      · simp [consentCheck, hcs]
      · exact absurd hcs hne

/-- C8 witness: a session whose `facial_data` flag is absent is denied at
start and never reaches scoring, even when a good frame is submitted. -/
theorem C8_witness :
    (runSession (sessionStart SessionMode.enroll "u" ⟨none, some true⟩ 0 100)
        [SessionEvent.submit 5 goodFace MatcherResponse.accepted]).scorerCalls = 0 ∧
      (runSession (sessionStart SessionMode.enroll "u" ⟨none, some true⟩ 0 100)
        [SessionEvent.submit 5 goodFace MatcherResponse.accepted]).phase
        = SessionPhase.denied :=
  C8_consent_denied_no_scoring.1 ⟨none, some true⟩ rfl SessionMode.enroll "u" 0 100
    [SessionEvent.submit 5 goodFace MatcherResponse.accepted]

/-- C9: `registerFace` and `verifyFace` absorb every thrown error of their
bodies — fetch failures, non-JSON responses and storage failures alike — and
resolve to `false` (with the auth state unchanged for `verifyFace`) instead of
rejecting, so callers never observe an uncaught failure. -/
theorem C9_register_verify_absorb_errors :
    (∀ (net : FetchResult FaceApiResponse) (e : String),
        registerFaceBody net = FetchResult.thrown e → registerFace net = false) ∧
      ∀ (st : AuthState) (net : FetchResult FaceApiResponse) (storageOk : Bool) (e : String),
        verifyFaceBody st net storageOk = FetchResult.thrown e →
          verifyFace st net storageOk = (st, false) := by
  constructor
  · intro net e h
    simp [registerFace, h]
  · intro st net storageOk e h
    simp [verifyFace, h]

/-- C9 witness: a thrown network error makes `registerFace` resolve to
`false`. -/
theorem C9_witness :
    registerFace (FetchResult.thrown "Network request failed") = false :=
  C9_register_verify_absorb_errors.1 (FetchResult.thrown "Network request failed")
    "Network request failed" rfl

/-- C10: when the backend answers success with a non-empty access token while
the stored `userId` is `null`, `verifyFace` still resolves to `true` and logs
the session in, persisting the empty string as the user identifier. -/
theorem C10_null_userId_still_logs_in (st : AuthState) (tok : String)
    (huid : st.userId = none) (htok : tok ≠ "") :
    verifyFace st (FetchResult.ok ⟨true, some tok⟩) true =
      ({ isAuthenticated := true, token := some tok, userId := some "", isLoading := false },
        true) := by
  simp [verifyFace, verifyFaceBody, strTruthy, htok, login, jsOrEmpty, huid]

/-- C10 witness: the statement at a logged-out state with a concrete token. -/
theorem C10_witness :
    verifyFace ⟨false, none, none, true⟩ (FetchResult.ok ⟨true, some "jwt"⟩) true =
      ({ isAuthenticated := true, token := some "jwt", userId := some "", isLoading := false },
        true) :=
  C10_null_userId_still_logs_in ⟨false, none, none, true⟩ "jwt" rfl (by decide)

end FaceAuth
